import Mathlib

/-!
Verification development for the ScreenShare repository's WebRTC signaling and
peer-session coordination layer.

Two components are embedded here, translated directly from the source:

* the signaling server (Socket.IO handlers for create-stream, join-stream,
  signal, end-stream and transport disconnect), which keeps a JS `Map` from
  stream ids to `{hostSocketId, viewers, createdAt}` records;
* the client-side `WebRTCConnection` class (peer-connection bookkeeping:
  `peerConnections`, `dataChannels`, `pendingCandidates`, ICE-gathering flags,
  error counters, reconnection policy, shutdown and `sendMessage`).

JS `Map`s are embedded as insertion-ordered association lists (`JMap`), with
`aset` replacing an existing key in place (as `Map.set` does) and `adel`
removing the key.  JS `Set`s of socket ids are embedded as duplicate-free
lists with membership-guarded insertion.  External effects (Socket.IO emits,
scheduled timers, event-listener callbacks) are embedded as explicit output
lists.  Timestamps (`Date.now()`) and generated ids (`uuidv4()`, the random
connection id) are passed in as parameters, since they are external inputs.
-/

/-- Insertion-ordered association list with string keys: the embedding of a
JS `Map`. -/
def JMap (α : Type) : Type := List (String × α)

instance (α : Type) [DecidableEq α] : DecidableEq (JMap α) :=
  inferInstanceAs (DecidableEq (List (String × α)))

/-- Embedding of `Map.prototype.get` (first matching entry). -/
def aget {α : Type} (m : JMap α) (k : String) : Option α :=
  match m with
  | [] => none
  | p :: rest => if p.1 = k then some p.2 else aget rest k

/-- Embedding of `Map.prototype.set`: replace the first entry with this key in
place, else append a fresh entry (JS `Map.set` keeps the original insertion
position of an existing key). -/
def aset {α : Type} (m : JMap α) (k : String) (v : α) : JMap α :=
  match m with
  | [] => [(k, v)]
  | p :: rest => if p.1 = k then (k, v) :: rest else p :: aset rest k v

/-- Embedding of `Map.prototype.delete`. -/
def adel {α : Type} (m : JMap α) (k : String) : JMap α :=
  match m with
  | [] => []
  | p :: rest => if p.1 = k then adel rest k else p :: adel rest k

/-- The keys of the map, in insertion order. -/
def akeys {α : Type} (m : JMap α) : List String := m.map Prod.fst

/-- One entry of the signaling server's `connections` map: the record stored by
the create-stream handler (`{hostSocketId, viewers, createdAt}`). -/
structure StreamConn where
  hostSocketId : String
  viewers : List String
  createdAt : Nat
deriving DecidableEq, Repr

/-- State of the signaling server: its `connections` map, plus the set of
socket ids Socket.IO currently considers connected (`io.sockets.sockets`),
which the join-stream handler consults for host liveness. -/
structure ServerState where
  connections : JMap StreamConn
  liveSockets : List String
deriving DecidableEq

/-- Messages the signaling server pushes to clients (Socket.IO emits). A
`streamEndedRoom` emit is addressed to the Socket.IO room named after the
stream id, whose members are the sockets that joined that stream. -/
inductive SOut where
  | streamCreated (sock sid : String)
  | errMsg (sock msg : String)
  | joinedStream (sock sid host : String)
  | viewerJoined (host viewerId sid : String)
  | streamEndedRoom (sid : String)
  | viewerLeft (host viewerId sid : String)
deriving DecidableEq, Repr

/-- The record the create-stream handler stores: new host identity, empty
viewer set, fresh timestamp. -/
def freshConn (sock : String) (now : Nat) : StreamConn :=
  { hostSocketId := sock, viewers := [], createdAt := now }

/-- The create-stream handler.  `req` is the client-supplied stream id (`""`
embeds a missing/falsy id).  `f1` is the id `uuidv4()` would return when the
request carries no id; `f2` is the id a second `uuidv4()` call would return on
an ownership collision.  Returns the new state, the effective stream id, and
the emitted messages. -/
def createStream (s : ServerState) (sock req f1 f2 : String) (now : Nat) :
    ServerState × String × List SOut :=
  let sid0 := if req = "" then f1 else req
  let sid :=
    match aget s.connections sid0 with
    | some existing => if existing.hostSocketId = sock then sid0 else f2
    | none => sid0
  ({ s with connections := aset s.connections sid (freshConn sock now) },
   sid, [SOut.streamCreated sock sid])

/-- The join-stream handler: rejects an empty id, then an unknown id
("Stream not found"), then a dead host ("Stream host is disconnected", also
deleting the orphaned entry); on success it adds the viewer to the session's
viewer set and notifies both the viewer and the host. -/
def joinStream (s : ServerState) (sock sid : String) : ServerState × List SOut :=
  if sid = "" then (s, [SOut.errMsg sock "Invalid stream ID"])
  else
    match aget s.connections sid with
    | none => (s, [SOut.errMsg sock "Stream not found"])
    | some conn =>
      if conn.hostSocketId ∈ s.liveSockets then
        let conn' := { conn with viewers :=
          if sock ∈ conn.viewers then conn.viewers else conn.viewers ++ [sock] }
        ({ s with connections := aset s.connections sid conn' },
         [SOut.joinedStream sock sid conn.hostSocketId,
          SOut.viewerJoined conn.hostSocketId sock sid])
      else
        ({ s with connections := adel s.connections sid },
         [SOut.errMsg sock "Stream host is disconnected"])

/-- The end-stream handler: only the current host may end a stream; viewers in
the stream room are then told the stream ended and the entry is removed. -/
def endStream (s : ServerState) (sock sid : String) : ServerState × List SOut :=
  match aget s.connections sid with
  | some conn =>
    if conn.hostSocketId = sock then
      ({ s with connections := adel s.connections sid }, [SOut.streamEndedRoom sid])
    else (s, [])
  | none => (s, [])

/-- The scan inside the disconnect handler: iterate over all `connections`
entries; an entry hosted by the departing socket is removed and its room told
the stream ended; an entry the socket was viewing keeps existing with the
viewer removed and the host told the viewer left. -/
def disconnectScan (sock : String) :
    List (String × StreamConn) → List (String × StreamConn) × List SOut
  | [] => ([], [])
  | p :: rest =>
    let r := disconnectScan sock rest
    if p.2.hostSocketId = sock then
      (r.1, SOut.streamEndedRoom p.1 :: r.2)
    else if sock ∈ p.2.viewers then
      ((p.1, { p.2 with viewers := p.2.viewers.erase sock }) :: r.1,
       SOut.viewerLeft p.2.hostSocketId sock p.1 :: r.2)
    else (p :: r.1, r.2)

/-- The transport-disconnect handler: run the scan over the registry and drop
the departing socket from the live-socket set. -/
def disconnectSocket (s : ServerState) (sock : String) : ServerState × List SOut :=
  let r := disconnectScan sock s.connections
  ({ connections := r.1, liveSockets := s.liveSockets.erase sock }, r.2)

/-- A request the signaling server can process, with the external inputs
(generated uuids, clock reading) made explicit. -/
inductive REv where
  | create (sock req f1 f2 : String) (now : Nat)
  | join (sock sid : String)
  | endSt (sock sid : String)
  | disc (sock : String)
deriving DecidableEq, Repr

/-- State transition of the signaling server on one request. -/
def applyEv (s : ServerState) : REv → ServerState
  | .create sock req f1 f2 now => (createStream s sock req f1 f2 now).1
  | .join sock sid => (joinStream s sock sid).1
  | .endSt sock sid => (endStream s sock sid).1
  | .disc sock => (disconnectSocket s sock).1

/-- Run a sequence of requests against the signaling server. -/
def runEvents (s : ServerState) (evs : List REv) : ServerState :=
  evs.foldl applyEv s

/-- `avoidsId X e` holds when the request `e` cannot introduce `X` as a stream
id: it is not a create request mentioning `X` as its requested id or as either
of its generator outputs. -/
def avoidsId (X : String) : REv → Bool
  | .create _ req f1 f2 _ => X ≠ req && X ≠ f1 && X ≠ f2
  | _ => true

/-- Model of the observable state of an `RTCPeerConnection` as this module
drives it: whether a remote description has been applied
(`setRemoteDescription`), and the ICE candidates handed to `addIceCandidate`,
in call order. -/
structure PC where
  remoteDescriptionSet : Bool
  applied : List String
deriving DecidableEq, Repr

/-- Model of an `RTCDataChannel` as `sendMessage` observes it: its
`readyState`, and whether the underlying `send` call would succeed (external
behaviour of the channel). -/
structure Channel where
  readyState : String
  sendOk : Bool
deriving DecidableEq, Repr

/-- Actions of the `WebRTCConnection` class that cross its boundary: events
emitted to registered listeners, signaling messages sent through the relay,
the end-stream notice on shutdown, and reconnection attempts scheduled with
`setTimeout`. -/
inductive CAct where
  | emit (event peerId : String)
  | sigSend (dest kind : String)
  | endStreamMsg (sid : String)
  | reconnectScheduled (peerId : String)
deriving DecidableEq, Repr

/-- The fields of the `WebRTCConnection` class constructor that the claims
below are about.  `signaling` records whether `this.signaling` is non-null;
`statsInterval` and `qualityCheckInterval` record whether those timers exist;
`localStream` records whether a local stream is attached. -/
structure WebRTCConnection where
  peerConnections : JMap PC
  dataChannels : JMap Channel
  pendingCandidates : JMap (List String)
  iceGatheringComplete : JMap Bool
  iceGatheringTimeouts : JMap Unit
  connectionErrors : JMap Nat
  lastConnectionAttempt : JMap Nat
  localStream : Bool
  signaling : Bool
  connectionId : Option String
  isHost : Bool
  reconnectAttempts : Nat
  connectionState : String
  statsInterval : Bool
  qualityCheckInterval : Bool
  connectionQuality : String
deriving DecidableEq

/-- The constructor's initial state. -/
def initW : WebRTCConnection :=
  { peerConnections := [], dataChannels := [], pendingCandidates := [],
    iceGatheringComplete := [], iceGatheringTimeouts := [], connectionErrors := [],
    lastConnectionAttempt := [], localStream := false, signaling := false,
    connectionId := none, isHost := false, reconnectAttempts := 0,
    connectionState := "disconnected", statsInterval := false,
    qualityCheckInterval := false, connectionQuality := "unknown" }

/-- A freshly constructed `RTCPeerConnection`: no remote description, no
candidates applied yet. -/
def newPC : PC := { remoteDescriptionSet := false, applied := [] }

/-- A freshly created control data channel (not yet open). -/
def newChannel : Channel := { readyState := "connecting", sendOk := true }

/-- Embedding of `_createPeerConnection`: store the connection, initialise the
pending-candidate list, the ICE-gathering flag and timeout, the error counter
(to 0) and the last-attempt timestamp (to `Date.now()`). -/
def createPeerConnection (s : WebRTCConnection) (pid : String) (now : Nat) :
    WebRTCConnection :=
  { s with
    peerConnections := aset s.peerConnections pid newPC,
    pendingCandidates := aset s.pendingCandidates pid [],
    iceGatheringComplete := aset s.iceGatheringComplete pid false,
    connectionErrors := aset s.connectionErrors pid 0,
    lastConnectionAttempt := aset s.lastConnectionAttempt pid now,
    iceGatheringTimeouts := aset s.iceGatheringTimeouts pid () }

/-- Embedding of `_cleanupPeerConnection`: delete the peer from every per-peer
map and clear its ICE-gathering timeout. -/
def cleanupPeerConnection (s : WebRTCConnection) (pid : String) : WebRTCConnection :=
  { s with
    peerConnections := adel s.peerConnections pid,
    dataChannels := adel s.dataChannels pid,
    pendingCandidates := adel s.pendingCandidates pid,
    iceGatheringComplete := adel s.iceGatheringComplete pid,
    iceGatheringTimeouts := adel s.iceGatheringTimeouts pid,
    connectionErrors := adel s.connectionErrors pid,
    lastConnectionAttempt := adel s.lastConnectionAttempt pid }

/-- Embedding of `connectToPeer`: when a connection for this peer already
exists, return it unchanged; otherwise create one, create the control data
channel, and send an offer through the signaling connection.  A missing
signaling connection makes the method throw after cleaning up, embedded as a
`none` result. -/
def connectToPeer (s : WebRTCConnection) (pid : String) (now : Nat) :
    WebRTCConnection × Option PC × List CAct :=
  match aget s.peerConnections pid with
  | some pc => (s, some pc, [])
  | none =>
    let s1 := createPeerConnection s pid now
    let s2 := { s1 with dataChannels := aset s1.dataChannels pid newChannel }
    if s2.signaling then
      (s2, aget s2.peerConnections pid, [CAct.sigSend pid "offer"])
    else
      (cleanupPeerConnection s2 pid, none, [])

/-- Embedding of `_handleIceCandidate`: with no connection for the peer the
candidate is pushed onto the pending list (created on demand); with a
connection present the candidate is handed to `addIceCandidate` immediately. -/
def handleIceCandidate (s : WebRTCConnection) (pid cand : String) :
    WebRTCConnection × List CAct :=
  match aget s.peerConnections pid with
  | none =>
    let cur := (aget s.pendingCandidates pid).getD []
    ({ s with pendingCandidates := aset s.pendingCandidates pid (cur ++ [cand]) }, [])
  | some pc =>
    let pc1 := { pc with applied := pc.applied ++ [cand] }
    ({ s with peerConnections := aset s.peerConnections pid pc1 }, [])

/-- Embedding of `_handleAnswer`: with no connection the method throws (state
unchanged); otherwise the remote description is set, then every pending
candidate is applied in arrival order and the pending list is reset to
empty. -/
def handleAnswer (s : WebRTCConnection) (pid : String) :
    WebRTCConnection × List CAct :=
  match aget s.peerConnections pid with
  | none => (s, [])
  | some pc =>
    let pc1 := { pc with remoteDescriptionSet := true }
    match aget s.pendingCandidates pid with
    | some pending =>
      let pc2 := { pc1 with applied := pc1.applied ++ pending }
      ({ s with peerConnections := aset s.peerConnections pid pc2,
                pendingCandidates := aset s.pendingCandidates pid [] }, [])
    | none =>
      ({ s with peerConnections := aset s.peerConnections pid pc1 }, [])

/-- Embedding of `_handleOffer`: create a bare `RTCPeerConnection` if none
exists (note: without initialising the per-peer auxiliary maps), set the
remote description, and send an answer back; the pending-candidate list is not
flushed here. -/
def handleOffer (s : WebRTCConnection) (pid : String) :
    WebRTCConnection × List CAct :=
  let s1 :=
    if (aget s.peerConnections pid).isSome then s
    else { s with peerConnections := aset s.peerConnections pid newPC }
  match aget s1.peerConnections pid with
  | none => (s1, [])
  | some pc =>
    let pc1 := { pc with remoteDescriptionSet := true }
    let s2 := { s1 with peerConnections := aset s1.peerConnections pid pc1 }
    (s2, if s2.signaling then [CAct.sigSend pid "answer"] else [])

/-- The signal payloads the signaling `signal` handler distinguishes. -/
inductive Sig where
  | offer
  | answer
  | candidate (c : String)
  | viewerReady
  | other
deriving DecidableEq, Repr

/-- Embedding of the `signal` handler set up in `_setupSignalingEvents`: if no
connection for the sender exists yet one is created, then the payload is
dispatched to the offer, answer or candidate handler; a `viewer-ready` payload
makes a host connect to the viewer only when no connection exists (which the
preceding creation step has just ruled out). -/
def handleSignal (s : WebRTCConnection) (srcId : String) (sig : Sig) (now : Nat) :
    WebRTCConnection × List CAct :=
  let s0 :=
    if (aget s.peerConnections srcId).isSome then s
    else createPeerConnection s srcId now
  match sig with
  | .offer => handleOffer s0 srcId
  | .answer => handleAnswer s0 srcId
  | .candidate c => handleIceCandidate s0 srcId c
  | .viewerReady =>
    if s0.isHost && !(aget s0.peerConnections srcId).isSome then
      let r := connectToPeer s0 srcId now
      (r.1, r.2.2)
    else (s0, [])
  | .other => (s0, [])

/-- Embedding of `_handleConnectionIssue`: increment the per-peer error count;
reconnect (after cleanup, via a scheduled `connectToPeer`) only while the
count is at most 3, the last attempt is more than 5000 ms old and this side is
the host; otherwise emit a `connection-failed` event. -/
def handleConnectionIssue (s : WebRTCConnection) (pid : String) (now : Nat) :
    WebRTCConnection × List CAct :=
  let errorCount := (aget s.connectionErrors pid).getD 0 + 1
  let s1 := { s with connectionErrors := aset s.connectionErrors pid errorCount }
  let timeSince := now - (aget s1.lastConnectionAttempt pid).getD 0
  if errorCount ≤ 3 ∧ 5000 < timeSince ∧ s1.isHost = true then
    let s2 := { s1 with lastConnectionAttempt := aset s1.lastConnectionAttempt pid now }
    (cleanupPeerConnection s2 pid, [CAct.reconnectScheduled pid])
  else
    (s1, [CAct.emit "connection-failed" pid])

/-- Embedding of the `iceconnectionstatechange` handler's
`connected`/`completed` branch: reset the peer's error counter to 0. -/
def iceConnected (s : WebRTCConnection) (pid : String) : WebRTCConnection :=
  { s with connectionErrors := aset s.connectionErrors pid 0 }

/-- Embedding of `disconnectFromPeer`: a no-op when no connection exists for
the peer; otherwise close the connection and clean up all per-peer state.  No
events are emitted. -/
def disconnectFromPeer (s : WebRTCConnection) (pid : String) :
    WebRTCConnection × List CAct :=
  if (aget s.peerConnections pid).isSome then (cleanupPeerConnection s pid, [])
  else (s, [])

/-- Embedding of `shutdown`: clean up every peer connection, clear all
per-peer maps, stop the stats and quality timers, notify the relay with
`end-stream` when acting as a host with a (truthy) connection id, drop the
signaling connection and reset the remaining fields. -/
def shutdown (s : WebRTCConnection) : WebRTCConnection × List CAct :=
  let s1 := s.peerConnections.foldl (fun st p => cleanupPeerConnection st p.1) s
  let s2 :=
    { s1 with
      peerConnections := [], dataChannels := [], pendingCandidates := [],
      iceGatheringComplete := [], iceGatheringTimeouts := [],
      connectionErrors := [], lastConnectionAttempt := [],
      statsInterval := false, qualityCheckInterval := false }
  let acts :=
    match s2.connectionId with
    | some cid => if s2.signaling && s2.isHost && !(cid == "") then
        [CAct.endStreamMsg cid] else []
    | none => []
  ({ s2 with signaling := false, localStream := false, connectionId := none,
             connectionState := "disconnected", reconnectAttempts := 0,
             connectionQuality := "unknown" }, acts)

/-- Embedding of `sendMessage`: `false` when no data channel exists for the
peer, when the channel is not open, or when the underlying `send` fails
(caught); `true` exactly when the message was handed to an open channel
successfully.  The method never throws and modifies none of the class's
state. -/
def sendMessage (s : WebRTCConnection) (pid _msg : String) :
    WebRTCConnection × Bool :=
  match aget s.dataChannels pid with
  | none => (s, false)
  | some ch =>
    if ch.readyState = "open" then (s, ch.sendOk) else (s, false)

/-- Folding a list of incoming ICE candidates through `_handleIceCandidate`
for one peer. -/
def bufRun (s : WebRTCConnection) (pid : String) (cs : List String) :
    WebRTCConnection :=
  cs.foldl (fun st c => (handleIceCandidate st pid c).1) s

/-- A server state with one stream "s" hosted by "h" with one viewer "v". -/
def c1state : ServerState :=
  { connections := [("s", { hostSocketId := "h", viewers := ["v"], createdAt := 0 })],
    liveSockets := ["h", "v"] }

/-- A server state with one stream "s" whose host "h" is not live. -/
def c3state : ServerState :=
  { connections := [("s", { hostSocketId := "h", viewers := [], createdAt := 0 })],
    liveSockets := [] }

/-- A server state with one stream "abc" hosted by live socket "h"; socket "g"
is also live. -/
def c4state : ServerState :=
  { connections := [("abc", { hostSocketId := "h", viewers := [], createdAt := 0 })],
    liveSockets := ["h", "g"] }

/-- A server state where "h" hosts stream "a" (with viewer "v") and also views
stream "b" hosted by "g". -/
def c6state : ServerState :=
  { connections :=
      [("a", { hostSocketId := "h", viewers := ["v"], createdAt := 0 }),
       ("b", { hostSocketId := "g", viewers := ["h"], createdAt := 1 })],
    liveSockets := ["h", "g", "v"] }

/-- A concrete request trace: "h" creates stream "abc", "w" joins it. -/
def c7evs : List REv := [REv.create "h" "abc" "u1" "u2" 0, REv.join "w" "abc"]

/-- A host-side coordinator with a live signaling connection. -/
def c2host : WebRTCConnection := { initW with isHost := true, signaling := true }

/-- State after the host initiates a connection to peer "p" (offer sent, no
remote description yet). -/
def c2s1 : WebRTCConnection := (connectToPeer c2host "p" 0).1

/-- State after an ICE candidate from "p" arrives before any answer. -/
def c2s2 : WebRTCConnection := (handleIceCandidate c2s1 "p" "cand1").1

/-- A coordinator holding a connection for "p" and two buffered candidates. -/
def c2flush : WebRTCConnection :=
  { initW with
    peerConnections := [("p", newPC)],
    pendingCandidates := [("p", ["x", "y"])] }

/-- A host coordinator with a live signaling connection and a session id, the
starting point of the C5 reconnection trace. -/
def c5w0 : WebRTCConnection :=
  { initW with isHost := true, signaling := true, connectionId := some "sess" }

/-- Host connects to peer "p" at t=0. -/
def c5s0 : WebRTCConnection := (connectToPeer c5w0 "p" 0).1

/-- First failure at t=10000 (more than 5s after the attempt). -/
def c5f1 : WebRTCConnection × List CAct := handleConnectionIssue c5s0 "p" 10000

/-- The scheduled reconnection runs at t=10001, re-creating the connection. -/
def c5s1 : WebRTCConnection := (connectToPeer c5f1.1 "p" 10001).1

/-- Second consecutive failure at t=20000, no `connected` in between. -/
def c5f2 : WebRTCConnection × List CAct := handleConnectionIssue c5s1 "p" 20000

/-- The second scheduled reconnection runs at t=20001. -/
def c5s2 : WebRTCConnection := (connectToPeer c5f2.1 "p" 20001).1

/-- Third consecutive failure at t=30000, still no `connected` in between. -/
def c5f3 : WebRTCConnection × List CAct := handleConnectionIssue c5s2 "p" 30000

/-- A coordinator that already holds a connection for "p". -/
def c8state : WebRTCConnection :=
  (connectToPeer { initW with signaling := true } "p" 0).1

/-! Basic facts about the JS-`Map` embedding, shared by the claim theorems. -/

lemma aget_aset_self {α : Type} (m : JMap α) (k : String) (v : α) :
    aget (aset m k v) k = some v := by
  induction m with
  | nil => simp [aset, aget]
  | cons p rest ih =>
    by_cases h : p.1 = k
    · simp [aset, h, aget]
    · simp [aset, h, aget, ih]

lemma aget_aset_ne {α : Type} (m : JMap α) (k k' : String) (v : α)
    (h : k' ≠ k) : aget (aset m k v) k' = aget m k' := by
  have hk : ¬(k = k') := fun hh => h hh.symm
  induction m with
  | nil => simp [aset, aget, hk]
  | cons p rest ih =>
    by_cases hp : p.1 = k
    · simp [aset, aget, hp, hk]
    · by_cases hp' : p.1 = k'
      · simp [aset, aget, hp, hp', h]
      · simp [aset, aget, hp, hp', ih]

lemma aget_adel_self {α : Type} (m : JMap α) (k : String) :
    aget (adel m k) k = none := by
  induction m with
  | nil => simp [adel, aget]
  | cons p rest ih =>
    by_cases h : p.1 = k
    · simp [adel, h, ih]
    · simp [adel, h, aget, ih]

lemma aget_adel_ne {α : Type} (m : JMap α) (k k' : String)
    (h : k' ≠ k) : aget (adel m k) k' = aget m k' := by
  have hk : ¬(k = k') := fun hh => h hh.symm
  induction m with
  | nil => simp [adel]
  | cons p rest ih =>
    by_cases hp : p.1 = k
    · simp [adel, aget, hp, hk, ih]
    · by_cases hp' : p.1 = k'
      · simp [adel, aget, hp, hp', h]
      · simp [adel, aget, hp, hp', ih]

lemma akeys_aset_of_isSome {α : Type} (m : JMap α) (k : String) (v : α)
    (h : (aget m k).isSome) : akeys (aset m k v) = akeys m := by
  induction m with
  | nil => simp [aget] at h
  | cons p rest ih =>
    by_cases hp : p.1 = k
    · simp [aset, hp, akeys]
    · have h' : (aget rest k).isSome := by simpa [aget, hp] using h
      have hih := ih h'
      simp only [akeys] at hih
      simp [aset, hp, akeys, hih]

/-- C1 counterexample: host "h" re-creates its own stream "s" while viewer "v"
is joined.  The same session id is returned, but the stored viewer set
afterwards is empty instead of the pre-reconnection viewer set, because the
create-stream handler replaces the whole record with a fresh one. -/
theorem C1_counterexample :
    (createStream c1state "h" "s" "f1" "f2" 5).2.1 = "s" ∧
    (aget (createStream c1state "h" "s" "f1" "f2" 5).1.connections "s").map
        StreamConn.viewers = some [] ∧
    some ([] : List String) ≠ some ["v"] := by
  refine ⟨by decide, by decide, by decide⟩

/-- C1 amended: when the requested id already maps to a session owned by the
requesting connection, create-stream returns the same session id, but it
replaces the stored record wholesale: the host identity is rewritten and the
viewer set is reset to empty with a refreshed creation timestamp, rather than
the previous viewer set being kept. -/
theorem C1_reconnect_resets_viewers (s : ServerState) (sock sid f1 f2 : String)
    (conn : StreamConn) (now : Nat) (hsid : sid ≠ "")
    (hget : aget s.connections sid = some conn)
    (hown : conn.hostSocketId = sock) :
    createStream s sock sid f1 f2 now =
      ({ s with connections := aset s.connections sid (freshConn sock now) }, sid,
       [SOut.streamCreated sock sid]) := by
  simp [createStream, hsid, hget, hown]

/-- Witness for the amended C1 at a concrete state. -/
theorem C1_reconnect_resets_viewers_witness :
    createStream c1state "h" "s" "f1" "f2" 5 =
      ({ c1state with connections := aset c1state.connections "s" (freshConn "h" 5) },
       "s", [SOut.streamCreated "h" "s"]) :=
  C1_reconnect_resets_viewers c1state "h" "s" "f1" "f2"
    { hostSocketId := "h", viewers := ["v"], createdAt := 0 } 5
    (by decide) (by decide) (by decide)

/-- C3: joining a session whose host socket is no longer live replies with the
"Stream host is disconnected" error and deletes the session; an immediately
following join for the same id replies with "Stream not found", and the two
error texts differ. -/
theorem C3_join_after_host_loss (s : ServerState) (sock sock2 sid : String)
    (conn : StreamConn) (hsid : sid ≠ "")
    (hget : aget s.connections sid = some conn)
    (hdead : conn.hostSocketId ∉ s.liveSockets) :
    joinStream s sock sid =
      ({ s with connections := adel s.connections sid },
       [SOut.errMsg sock "Stream host is disconnected"]) ∧
    (joinStream (joinStream s sock sid).1 sock2 sid).2 =
      [SOut.errMsg sock2 "Stream not found"] ∧
    "Stream not found" ≠ "Stream host is disconnected" := by
  have h1 : joinStream s sock sid =
      ({ s with connections := adel s.connections sid },
       [SOut.errMsg sock "Stream host is disconnected"]) := by
    simp [joinStream, hsid, hget, hdead]
  refine ⟨h1, ?_, by decide⟩
  rw [h1]
  simp [joinStream, hsid, aget_adel_self]

/-- Witness for C3 at a concrete state. -/
theorem C3_join_after_host_loss_witness :
    joinStream c3state "w" "s" =
      ({ c3state with connections := adel c3state.connections "s" },
       [SOut.errMsg "w" "Stream host is disconnected"]) ∧
    (joinStream (joinStream c3state "w" "s").1 "w2" "s").2 =
      [SOut.errMsg "w2" "Stream not found"] ∧
    "Stream not found" ≠ "Stream host is disconnected" :=
  C3_join_after_host_loss c3state "w" "w2" "s"
    { hostSocketId := "h", viewers := [], createdAt := 0 }
    (by decide) (by decide) (by decide)

/-- C4: a create-stream request whose requested id collides with a session
owned by a different connection is never rejected: the handler returns the
second generated id (assumed fresh, as `uuidv4` outputs are), the pre-existing
session is unchanged, and both the old and the new session can each be joined
afterwards. -/
theorem C4_collision_mints_new_id (s : ServerState)
    (sock sid f1 f2 v1 v2 : String) (conn : StreamConn) (now : Nat)
    (hsid : sid ≠ "") (hget : aget s.connections sid = some conn)
    (hother : conn.hostSocketId ≠ sock)
    (hfresh : aget s.connections f2 = none)
    (hne : f2 ≠ sid) (hf2 : f2 ≠ "")
    (hhostlive : conn.hostSocketId ∈ s.liveSockets)
    (hsocklive : sock ∈ s.liveSockets) :
    (createStream s sock sid f1 f2 now).2.1 = f2 ∧
    f2 ≠ sid ∧
    aget (createStream s sock sid f1 f2 now).1.connections sid = some conn ∧
    aget (createStream s sock sid f1 f2 now).1.connections f2 =
      some (freshConn sock now) ∧
    (joinStream (createStream s sock sid f1 f2 now).1 v1 sid).2 =
      [SOut.joinedStream v1 sid conn.hostSocketId,
       SOut.viewerJoined conn.hostSocketId v1 sid] ∧
    (joinStream (createStream s sock sid f1 f2 now).1 v2 f2).2 =
      [SOut.joinedStream v2 f2 sock, SOut.viewerJoined sock v2 f2] := by
  have hcs : createStream s sock sid f1 f2 now =
      ({ s with connections := aset s.connections f2 (freshConn sock now) }, f2,
       [SOut.streamCreated sock f2]) := by
    simp [createStream, hsid, hget, hother]
  have hagets : aget (aset s.connections f2 (freshConn sock now)) sid = some conn := by
    rw [aget_aset_ne _ _ _ _ hne.symm]; exact hget
  have hagetf : aget (aset s.connections f2 (freshConn sock now)) f2 =
      some (freshConn sock now) := aget_aset_self _ _ _
  rw [hcs]
  refine ⟨rfl, hne, hagets, hagetf, ?_, ?_⟩
  · simp [joinStream, hsid, hagets, hhostlive]
  · have hagetf' := hagetf
    simp only [freshConn] at hagetf'
    simp [joinStream, hf2, hagetf', hsocklive, freshConn]

/-- Witness for C4 at a concrete state: "g" requests the taken id "abc". -/
theorem C4_collision_mints_new_id_witness :
    (createStream c4state "g" "abc" "u1" "u2" 7).2.1 = "u2" ∧
    "u2" ≠ "abc" ∧
    aget (createStream c4state "g" "abc" "u1" "u2" 7).1.connections "abc" =
      some { hostSocketId := "h", viewers := [], createdAt := 0 } ∧
    aget (createStream c4state "g" "abc" "u1" "u2" 7).1.connections "u2" =
      some (freshConn "g" 7) ∧
    (joinStream (createStream c4state "g" "abc" "u1" "u2" 7).1 "v1" "abc").2 =
      [SOut.joinedStream "v1" "abc" "h", SOut.viewerJoined "h" "v1" "abc"] ∧
    (joinStream (createStream c4state "g" "abc" "u1" "u2" 7).1 "v2" "u2").2 =
      [SOut.joinedStream "v2" "u2" "g", SOut.viewerJoined "g" "v2" "u2"] :=
  C4_collision_mints_new_id c4state "g" "abc" "u1" "u2" "v1" "v2"
    { hostSocketId := "h", viewers := [], createdAt := 0 } 7
    (by decide) (by decide) (by decide) (by decide) (by decide) (by decide)
    (by decide) (by decide)

lemma scan_notin (sock sid : String) (l : List (String × StreamConn))
    (h : sid ∉ l.map Prod.fst) (hst vw : String) :
    aget (disconnectScan sock l).1 sid = none ∧
    (disconnectScan sock l).2.count (SOut.streamEndedRoom sid) = 0 ∧
    (disconnectScan sock l).2.count (SOut.viewerLeft hst vw sid) = 0 := by
  induction l with
  | nil => simp [disconnectScan, aget]
  | cons p rest ih =>
    simp only [List.map_cons, List.mem_cons, not_or] at h
    obtain ⟨hp, hrest⟩ := h
    have ihr := ih hrest
    by_cases hh : p.2.hostSocketId = sock
    · simp [disconnectScan, hh, ihr.1, ihr.2.1, ihr.2.2, List.count_cons,
        Ne.symm hp, hp]
    · by_cases hv : sock ∈ p.2.viewers
      · simp [disconnectScan, hh, hv, aget, ihr.1, ihr.2.1, ihr.2.2,
          List.count_cons, Ne.symm hp, hp]
      · simp [disconnectScan, hh, hv, aget, ihr.1, ihr.2.1, ihr.2.2, Ne.symm hp]

lemma scan_spec (sock sid : String) (conn : StreamConn)
    (l : List (String × StreamConn))
    (hnd : (l.map Prod.fst).Nodup) (hget : aget l sid = some conn) :
    (conn.hostSocketId = sock →
       aget (disconnectScan sock l).1 sid = none ∧
       (disconnectScan sock l).2.count (SOut.streamEndedRoom sid) = 1) ∧
    (conn.hostSocketId ≠ sock → sock ∈ conn.viewers →
       aget (disconnectScan sock l).1 sid =
         some { conn with viewers := conn.viewers.erase sock } ∧
       (disconnectScan sock l).2.count
         (SOut.viewerLeft conn.hostSocketId sock sid) = 1) := by
  induction l with
  | nil => simp [aget] at hget
  | cons p rest ih =>
    simp only [List.map_cons, List.nodup_cons] at hnd
    obtain ⟨hpnotin, hndrest⟩ := hnd
    by_cases hp : p.1 = sid
    · have hconn : p.2 = conn := by simpa [aget, hp] using hget
      have hrest : sid ∉ rest.map Prod.fst := by rw [← hp]; exact hpnotin
      constructor
      · intro hhost
        have hni := scan_notin sock sid rest hrest conn.hostSocketId sock
        simp [disconnectScan, hconn, hhost, hp, hni.1, hni.2.1, List.count_cons]
      · intro hhost hview
        have hni := scan_notin sock sid rest hrest conn.hostSocketId sock
        simp [disconnectScan, hconn, hhost, hview, aget, hp, hni.1, hni.2.2,
          List.count_cons]
    · have hgetrest : aget rest sid = some conn := by simpa [aget, hp] using hget
      have ihr := ih hndrest hgetrest
      constructor
      · intro hhost
        have ihh := ihr.1 hhost
        by_cases hh : p.2.hostSocketId = sock
        · simp [disconnectScan, hh, ihh.1, ihh.2, List.count_cons, hp]
        · by_cases hv : sock ∈ p.2.viewers
          · simp [disconnectScan, hh, hv, aget, hp, ihh.1, ihh.2, List.count_cons]
          · simp [disconnectScan, hh, hv, aget, hp, ihh.1, ihh.2]
      · intro hhost hview
        have ihh := ihr.2 hhost hview
        by_cases hh : p.2.hostSocketId = sock
        · simp [disconnectScan, hh, ihh.1, ihh.2, List.count_cons, hp]
        · by_cases hv : sock ∈ p.2.viewers
          · simp [disconnectScan, hh, hv, aget, hp, ihh.1, ihh.2, List.count_cons]
          · simp [disconnectScan, hh, hv, aget, hp, ihh.1, ihh.2]

/-- C6: on a transport disconnect, every session hosted by the departing
connection is removed and exactly one stream-ended notice is pushed to its
room, and every session the departing connection was viewing survives with
the viewer removed and exactly one viewer-left notice (carrying the viewer id
and the session id) pushed to its host. -/
theorem C6_disconnect_cascades (s : ServerState) (sock sid : String)
    (conn : StreamConn) (hnd : (akeys s.connections).Nodup)
    (hget : aget s.connections sid = some conn) :
    (conn.hostSocketId = sock →
       aget (disconnectSocket s sock).1.connections sid = none ∧
       (disconnectSocket s sock).2.count (SOut.streamEndedRoom sid) = 1) ∧
    (conn.hostSocketId ≠ sock → sock ∈ conn.viewers →
       aget (disconnectSocket s sock).1.connections sid =
         some { conn with viewers := conn.viewers.erase sock } ∧
       (disconnectSocket s sock).2.count
         (SOut.viewerLeft conn.hostSocketId sock sid) = 1) := by
  have hnd' : (s.connections.map Prod.fst).Nodup := by simpa [akeys] using hnd
  have h := scan_spec sock sid conn s.connections hnd' hget
  simpa [disconnectSocket] using h

/-- Witness for C6: when "h" disconnects, stream "a" is removed with one
stream-ended notice and stream "b" survives without viewer "h", its host "g"
getting one viewer-left notice. -/
theorem C6_disconnect_cascades_witness :
    (aget (disconnectSocket c6state "h").1.connections "a" = none ∧
     (disconnectSocket c6state "h").2.count (SOut.streamEndedRoom "a") = 1) ∧
    (aget (disconnectSocket c6state "h").1.connections "b" =
       some { hostSocketId := "g", viewers := [], createdAt := 1 } ∧
     (disconnectSocket c6state "h").2.count (SOut.viewerLeft "g" "h" "b") = 1) := by
  have h1 := C6_disconnect_cascades c6state "h" "a"
    { hostSocketId := "h", viewers := ["v"], createdAt := 0 } (by decide) (by decide)
  have h2 := C6_disconnect_cascades c6state "h" "b"
    { hostSocketId := "g", viewers := ["h"], createdAt := 1 } (by decide) (by decide)
  refine ⟨h1.1 (by decide), ?_⟩
  have h2' := h2.2 (by decide) (by decide)
  simpa using h2'

lemma scan_preserves_none (sock X : String) (l : List (String × StreamConn))
    (h : aget l X = none) : aget (disconnectScan sock l).1 X = none := by
  induction l with
  | nil => simp [disconnectScan, aget]
  | cons p rest ih =>
    have hp : ¬(p.1 = X) := by
      intro hh
      simp [aget, hh] at h
    have hrest : aget rest X = none := by simpa [aget, hp] using h
    by_cases hh : p.2.hostSocketId = sock
    · simp [disconnectScan, hh, ih hrest]
    · by_cases hv : sock ∈ p.2.viewers
      · simp [disconnectScan, hh, hv, aget, hp, ih hrest]
      · simp [disconnectScan, hh, hv, aget, hp, ih hrest]

lemma applyEv_preserves_none (s : ServerState) (e : REv) (X : String)
    (h : aget s.connections X = none) (hav : avoidsId X e = true) :
    aget (applyEv s e).connections X = none := by
  cases e with
  | create sock req f1 f2 now =>
    simp only [avoidsId, Bool.and_eq_true, decide_eq_true_eq] at hav
    obtain ⟨⟨hreq, hf1⟩, hf2⟩ := hav
    have hX0 : X ≠ (if req = "" then f1 else req) := by
      by_cases hr : req = "" <;> simp [hr, hf1, hreq]
    simp only [applyEv, createStream]
    cases hm : aget s.connections (if req = "" then f1 else req) with
    | none =>
      simp only [hm]
      rw [aget_aset_ne _ _ _ _ hX0]
      exact h
    | some ex =>
      by_cases he : ex.hostSocketId = sock
      · simp only [hm, he, if_true]
        rw [aget_aset_ne _ _ _ _ hX0]
        exact h
      · simp only [hm, he, if_false]
        rw [aget_aset_ne _ _ _ _ hf2]
        exact h
  | join sock sid =>
    simp only [applyEv, joinStream]
    by_cases hs : sid = ""
    · simp [hs, h]
    · cases hm : aget s.connections sid with
      | none => simp [hs, hm, h]
      | some conn =>
        have hXs : X ≠ sid := by
          intro hh
          rw [hh] at h
          rw [h] at hm
          cases hm
        by_cases hl : conn.hostSocketId ∈ s.liveSockets
        · simp only [hs, hm, hl, if_true, if_false]
          rw [aget_aset_ne _ _ _ _ hXs]
          exact h
        · simp only [hs, hm, hl, if_true, if_false]
          rw [aget_adel_ne _ _ _ hXs]
          exact h
  | endSt sock sid =>
    simp only [applyEv, endStream]
    cases hm : aget s.connections sid with
    | none => simp [hm, h]
    | some conn =>
      by_cases hh : conn.hostSocketId = sock
      · simp only [hm, hh, if_true]
        by_cases hXs : X = sid
        · rw [hXs]
          exact aget_adel_self _ _
        · rw [aget_adel_ne _ _ _ hXs]
          exact h
      · simp [hm, hh, h]
  | disc sock =>
    simp only [applyEv, disconnectSocket]
    exact scan_preserves_none sock X s.connections h

/-- C7: starting from a state not containing session id `X`, after any
sequence of requests whose create operations never involve `X` (neither as
the requested id nor as a generator output), a join-stream for `X` replies
with the "Stream not found" error, which differs from the host-unreachable
error text. -/
theorem C7_never_created_not_found (s0 : ServerState) (evs : List REv)
    (X v : String) (h0 : aget s0.connections X = none)
    (hav : evs.all (avoidsId X) = true) (hX : X ≠ "") :
    (joinStream (runEvents s0 evs) v X).2 = [SOut.errMsg v "Stream not found"] ∧
    "Stream not found" ≠ "Stream host is disconnected" := by
  have hone : ∀ (l : List REv) (s : ServerState), l.all (avoidsId X) = true →
      aget s.connections X = none →
      aget (runEvents s l).connections X = none := by
    intro l
    induction l with
    | nil =>
      intro s _ h
      simpa [runEvents] using h
    | cons e rest ih =>
      intro s hall h
      simp only [List.all_cons, Bool.and_eq_true] at hall
      have hstep := applyEv_preserves_none s e X h hall.1
      simpa [runEvents] using ih (applyEv s e) hall.2 hstep
  have hnone := hone evs s0 hav h0
  constructor
  · simp [joinStream, hX, hnone]
  · decide

/-- Witness for C7 on the concrete trace: joining the never-created id "zzz"
is answered with "Stream not found". -/
theorem C7_never_created_not_found_witness :
    (joinStream (runEvents { connections := [], liveSockets := ["h", "w"] } c7evs)
       "v" "zzz").2 = [SOut.errMsg "v" "Stream not found"] ∧
    "Stream not found" ≠ "Stream host is disconnected" :=
  C7_never_created_not_found { connections := [], liveSockets := ["h", "w"] }
    c7evs "zzz" "v" (by decide) (by decide) (by decide)

/-- C2 counterexample: peer "p" has a connection whose remote description is
not yet set; the candidate "cand1" arriving in that window is not buffered
(the pending list stays empty) but is handed to `addIceCandidate` at once. -/
theorem C2_counterexample :
    (aget c2s1.peerConnections "p").map PC.remoteDescriptionSet = some false ∧
    aget c2s2.pendingCandidates "p" = some [] ∧
    some ([] : List String) ≠ some ["cand1"] ∧
    (aget c2s2.peerConnections "p").map PC.applied = some ["cand1"] := by
  refine ⟨by decide, by decide, by decide, by decide⟩

lemma bufRun_accumulates (pid : String) (cs : List String) :
    ∀ (s : WebRTCConnection) (p : List String),
      aget s.peerConnections pid = none →
      aget s.pendingCandidates pid = some p →
      aget (bufRun s pid cs).pendingCandidates pid = some (p ++ cs) ∧
      aget (bufRun s pid cs).peerConnections pid = none := by
  induction cs with
  | nil =>
    intro s p hpc hpend
    exact ⟨by simpa [bufRun] using hpend, by simpa [bufRun] using hpc⟩
  | cons c rest ih =>
    intro s p hpc hpend
    have hstep : (handleIceCandidate s pid c).1 =
        { s with pendingCandidates := aset s.pendingCandidates pid (p ++ [c]) } := by
      simp [handleIceCandidate, hpc, hpend]
    have h1 : aget ((handleIceCandidate s pid c).1).peerConnections pid = none := by
      rw [hstep]
      exact hpc
    have h2 : aget ((handleIceCandidate s pid c).1).pendingCandidates pid =
        some (p ++ [c]) := by
      rw [hstep]
      exact aget_aset_self _ _ _
    have hrec := ih _ _ h1 h2
    constructor
    · have := hrec.1
      simpa [bufRun, List.append_assoc] using this
    · simpa [bufRun] using hrec.2

/-- C2 amended: ICE candidates that arrive while no peer-connection object
exists for the peer are buffered in arrival order (none dropped, the peer
set untouched); and when an answer is handled for a peer with an existing
connection, the remote description is set and every buffered candidate is
applied, in original arrival order, after which the buffer is emptied.
Candidates that arrive while a connection object exists are handed to
`addIceCandidate` immediately, even before the remote description is set. -/
theorem C2_candidate_buffering (s t : WebRTCConnection) (pid c : String)
    (cs pending : List String) (pc : PC) :
    (aget s.peerConnections pid = none →
       aget (bufRun s pid (c :: cs)).pendingCandidates pid =
         some ((aget s.pendingCandidates pid).getD [] ++ (c :: cs)) ∧
       aget (bufRun s pid (c :: cs)).peerConnections pid = none) ∧
    (aget t.peerConnections pid = some pc →
     aget t.pendingCandidates pid = some pending →
       handleAnswer t pid =
         ({ t with
            peerConnections :=
              aset t.peerConnections pid (PC.mk true (pc.applied ++ pending)),
            pendingCandidates := aset t.pendingCandidates pid [] }, [])) := by
  constructor
  · intro hpc
    have hstep : (handleIceCandidate s pid c).1 =
        { s with
          pendingCandidates :=
            aset s.pendingCandidates pid ((aget s.pendingCandidates pid).getD [] ++ [c]) } := by
      simp [handleIceCandidate, hpc]
    have h1 : aget ((handleIceCandidate s pid c).1).peerConnections pid = none := by
      rw [hstep]
      exact hpc
    have h2 : aget ((handleIceCandidate s pid c).1).pendingCandidates pid =
        some ((aget s.pendingCandidates pid).getD [] ++ [c]) := by
      rw [hstep]
      exact aget_aset_self _ _ _
    have hrec := bufRun_accumulates pid cs _ _ h1 h2
    constructor
    · have := hrec.1
      simpa [bufRun, List.append_assoc] using this
    · simpa [bufRun] using hrec.2
  · intro hpc hpend
    simp [handleAnswer, hpc, hpend]

/-- Witness for the amended C2 at concrete states. -/
theorem C2_candidate_buffering_witness :
    (aget (bufRun initW "p" ("a" :: ["b"])).pendingCandidates "p" =
       some ((aget initW.pendingCandidates "p").getD [] ++ ("a" :: ["b"])) ∧
     aget (bufRun initW "p" ("a" :: ["b"])).peerConnections "p" = none) ∧
    handleAnswer c2flush "p" =
      ({ c2flush with
         peerConnections :=
           aset c2flush.peerConnections "p" (PC.mk true (newPC.applied ++ ["x", "y"])),
         pendingCandidates := aset c2flush.pendingCandidates "p" [] }, []) :=
  ⟨(C2_candidate_buffering initW c2flush "p" "a" ["b"] ["x", "y"] newPC).1 (by decide),
   (C2_candidate_buffering initW c2flush "p" "a" ["b"] ["x", "y"] newPC).2
     (by decide) (by decide)⟩

/-- C5 evaluation at the failing input: three consecutive failure transitions
for peer "p" with no intervening connected state, each more than 5s after the
preceding reconnection attempt.  Every failure, the third included, schedules
another automatic reconnection and emits no terminal connection-failed event;
the error counter observed before the third failure is 0 (not 2), because the
reconnection path's cleanup deletes the counter and the re-created connection
resets it, defeating the "max 3 attempts" cap the code itself states. -/
theorem C5_reconnect_cap_not_enforced :
    c5f1.2 = [CAct.reconnectScheduled "p"] ∧
    c5f2.2 = [CAct.reconnectScheduled "p"] ∧
    c5f3.2 = [CAct.reconnectScheduled "p"] ∧
    aget c5s2.connectionErrors "p" = some 0 ∧
    CAct.emit "connection-failed" "p" ∉ c5f1.2 ++ c5f2.2 ++ c5f3.2 ∧
    aget (iceConnected c5s2 "p").connectionErrors "p" = some 0 := by
  refine ⟨by decide, by decide, by decide, by decide, by decide, by decide⟩

/-- C8: the coordinator keeps at most one peer connection per peer id.  When a
connection for `pid` already exists, `connectToPeer` returns it and leaves the
state untouched, and the `signal` handler (for any payload) reuses it, leaving
the set of known peers unchanged. -/
theorem C8_single_connection_per_peer (s : WebRTCConnection)
    (pid : String) (now : Nat) (sig : Sig) (pc : PC)
    (hget : aget s.peerConnections pid = some pc) :
    connectToPeer s pid now = (s, some pc, []) ∧
    akeys ((handleSignal s pid sig now).1).peerConnections =
      akeys s.peerConnections := by
  have hsome : (aget s.peerConnections pid).isSome := by simp [hget]
  have hc : connectToPeer s pid now = (s, some pc, []) := by
    simp [connectToPeer, hget]
  refine ⟨hc, ?_⟩
  cases sig with
  | offer =>
    simp only [handleSignal, hsome, if_true]
    simp [handleOffer, hsome, hget, akeys_aset_of_isSome _ _ _ hsome]
  | answer =>
    simp only [handleSignal, hsome, if_true]
    cases hp : aget s.pendingCandidates pid with
    | some pending => simp [handleAnswer, hget, hp, akeys_aset_of_isSome _ _ _ hsome]
    | none => simp [handleAnswer, hget, hp, akeys_aset_of_isSome _ _ _ hsome]
  | candidate c =>
    simp only [handleSignal, hsome, if_true]
    simp [handleIceCandidate, hget, akeys_aset_of_isSome _ _ _ hsome]
  | viewerReady =>
    simp [handleSignal, hsome]
  | other =>
    simp [handleSignal, hsome]

/-- Witness for C8 at a concrete state. -/
theorem C8_single_connection_per_peer_witness :
    connectToPeer c8state "p" 5 = (c8state, some newPC, []) ∧
    akeys ((handleSignal c8state "p" Sig.offer 5).1).peerConnections =
      akeys c8state.peerConnections :=
  C8_single_connection_per_peer c8state "p" 5 Sig.offer newPC (by decide)

/-- C9: disconnecting from the same peer twice and shutting down twice are
idempotent: the second call returns the state unchanged and produces no
actions; shutting down the freshly constructed (never initialised)
coordinator also produces no actions. -/
theorem C9_idempotent_teardown (s : WebRTCConnection) (pid : String) :
    disconnectFromPeer (disconnectFromPeer s pid).1 pid =
      ((disconnectFromPeer s pid).1, []) ∧
    shutdown (shutdown s).1 = ((shutdown s).1, []) ∧
    (shutdown initW).2 = [] := by
  refine ⟨?_, ?_, by decide⟩
  · by_cases h : (aget s.peerConnections pid).isSome
    · simp [disconnectFromPeer, h, cleanupPeerConnection, aget_adel_self]
    · simp [disconnectFromPeer, h]
  · rfl

/-- C10: `sendMessage` never throws and modifies no state; it returns `true`
exactly when a data channel for the peer exists, is open, and the underlying
send succeeds, and `false` otherwise. -/
theorem C10_sendMessage_total (s : WebRTCConnection) (pid m : String) :
    (sendMessage s pid m).1 = s ∧
    ((sendMessage s pid m).2 = true ↔
      ∃ ch : Channel, aget s.dataChannels pid = some ch ∧
        ch.readyState = "open" ∧ ch.sendOk = true) := by
  cases h : aget s.dataChannels pid with
  | none => simp [sendMessage, h]
  | some ch =>
    by_cases hr : ch.readyState = "open"
    · simp [sendMessage, h, hr]
    · simp [sendMessage, h, hr]

/-- Witness instantiating C9 at a concrete state and peer. -/
theorem C9_idempotent_teardown_witness :
    disconnectFromPeer (disconnectFromPeer c2host "p").1 "p" =
      ((disconnectFromPeer c2host "p").1, []) ∧
    shutdown (shutdown c2host).1 = ((shutdown c2host).1, []) ∧
    (shutdown initW).2 = [] :=
  C9_idempotent_teardown c2host "p"

/-- Witness instantiating C10 at a concrete state, peer and message. -/
theorem C10_sendMessage_total_witness :
    (sendMessage initW "p" "hello").1 = initW ∧
    ((sendMessage initW "p" "hello").2 = true ↔
      ∃ ch : Channel, aget initW.dataChannels "p" = some ch ∧
        ch.readyState = "open" ∧ ch.sendOk = true) :=
  C10_sendMessage_total initW "p" "hello"
